import Mathlib

/-!
Verification of the self-corrected RAG pipeline
(`src/pipeline/rag_pipeline.py`, `src/agents/agents.py`, `src/validators.py`,
`src/metrics.py`) against its natural-language specification.

Strings are modelled as `List Char` (`Str`); external collaborators
(retriever, relevance classifier, answer generator, answer scorer) are
modelled as oracle functions returning `Except Str _`, where an `.error`
value models the Python call raising an exception. Latency and token
fields of `QueryMetrics` are timing-dependent and not modelled; the
fields the claims mention (`success`, `final_score`, `error_message`)
are kept.
-/

abbrev Str : Type := List Char

instance {ε α : Type} [DecidableEq ε] [DecidableEq α] : DecidableEq (Except ε α) := fun x y =>
  match x, y with
  | .ok a, .ok b =>
    if h : a = b then .isTrue (by rw [h])
    else .isFalse (by intro hh; cases hh; exact h rfl)
  | .ok _, .error _ => .isFalse (by intro h; cases h)
  | .error _, .ok _ => .isFalse (by intro h; cases h)
  | .error e, .error f =>
    if h : e = f then .isTrue (by rw [h])
    else .isFalse (by intro hh; cases hh; exact h rfl)

/-! ### Input validation (`src/validators.py`) -/

/-- Python regex class `\s` over the characters the pipeline can see. -/
def isSpace (c : Char) : Bool :=
  c == ' ' || c == '\t' || c == '\n' || c == '\r' || c == '\x0b' || c == '\x0c'

/-- Line `text.replace('\x00', '')` of `InputValidator._sanitize_input`. -/
def removeNull (l : Str) : Str :=
  l.filter (fun c => !(c == '\x00'))

/-- Helper for `re.sub(r'\s+', ' ', text)`: the Bool records whether the
previous character was part of a whitespace run already replaced. -/
def collapseAux : Bool → Str → Str
  | _, [] => []
  | prevSpace, c :: rest =>
    if isSpace c then
      if prevSpace then collapseAux true rest
      else ' ' :: collapseAux true rest
    else c :: collapseAux false rest

/-- Line `re.sub(r'\s+', ' ', text)` of `InputValidator._sanitize_input`. -/
def collapseWs (l : Str) : Str := collapseAux false l

/-- Line removing control characters except newlines and tabs. -/
def removeCtrl (l : Str) : Str :=
  l.filter (fun c => 32 ≤ c.toNat || c == '\n' || c == '\t')

/-- `InputValidator._sanitize_input`. -/
def sanitize_input (l : Str) : Str :=
  removeCtrl (collapseWs (removeNull l))

/-- Python `str.strip()` on whitespace. -/
def stripWs (l : Str) : Str :=
  ((l.dropWhile isSpace).reverse.dropWhile isSpace).reverse

def errQueryEmpty : Str := "Query cannot be empty".data

def errQueryTooLong : Str := "Query exceeds maximum length".data

/-- `InputValidator.validate_query` (the suspicious-pattern scan only logs
and does not change the returned value, so it is omitted): reject the
empty string, reject a raw query longer than `maxLen`, otherwise sanitize
and strip. -/
def validate_query (q : Str) (maxLen : Nat) : Except Str Str :=
  if q.isEmpty then .error errQueryEmpty
  else if maxLen < q.length then .error errQueryTooLong
  else .ok (stripWs (sanitize_input q))

/-! ### Context assembly (`SelfCorrectedRAGPipeline._prepare_context`) -/

def contextSep : Str := "\n\n---\n\n".data

def truncMarker : Str := "\n\n[Context truncated...]".data

/-- The join `"\n\n---\n\n".join([doc.page_content for doc in documents])`. -/
def joinContext (docs : List Str) : Str :=
  List.intercalate contextSep docs

/-- The truncation step of `_prepare_context`:
`context[:max_length] + "\n\n[Context truncated...]"` when over the bound. -/
def truncate_step (maxLen : Nat) (s : Str) : Str :=
  if maxLen < s.length then s.take maxLen ++ truncMarker else s

/-- `SelfCorrectedRAGPipeline._prepare_context`. -/
def prepare_context (docs : List Str) (maxLen : Nat) : Str :=
  truncate_step maxLen (joinContext docs)

/-! ### Constructor defaults (`SelfCorrectedRAGPipeline.__init__`) -/

/-- Python `arg or dflt` on an optional int: `None` and `0` are falsy. -/
def pyIntOr (arg : Option Int) (dflt : Int) : Int :=
  match arg with
  | none => dflt
  | some v => if v = 0 then dflt else v

/-- `config.get(key, dflt)`: the configured value when present, else `dflt`. -/
def config_get (v : Option Int) (dflt : Int) : Int := v.getD dflt

/-- Line `self.max_correction_attempts = max_correction_attempts or
config.get('rag.max_correction_attempts', 3)`. -/
def init_max_correction_attempts (arg : Option Int) (cfgVal : Option Int) : Int :=
  pyIntOr arg (config_get cfgVal 3)

/-- Line `self.min_acceptable_score = min_acceptable_score or
config.get('rag.min_acceptable_score', 3)`. -/
def init_min_acceptable_score (arg : Option Int) (cfgVal : Option Int) : Int :=
  pyIntOr arg (config_get cfgVal 3)

/-! ### Guardrail filtering (`src/agents/agents.py`, `GuardrailAgent`) -/

/-- Schema `GuardrailCheck` of the relevance classifier's structured output. -/
structure GuardrailCheck where
  is_relevant : Bool
  justification : Str
deriving DecidableEq

/-- Justification text recorded on a failed classifier call:
`f"Error during check: {e}"`. -/
def errJust (e : Str) : Str := "Error during check: ".data ++ e

/-- `GuardrailAgent._filter_sequential`, with the loop index made explicit.
The classifier oracle is keyed by passage index; `.error e` models the
`check_relevance` call raising. On error the passage is included by
default and the justification records the error (the `except` branch). -/
def filter_sequential (classify : Nat → Except Str GuardrailCheck) :
    Nat → List Str → List Str × List Str
  | _, [] => ([], [])
  | i, d :: rest =>
    let tail := filter_sequential classify (i + 1) rest
    match classify i with
    | .ok r => if r.is_relevant then (d :: tail.1, r.justification :: tail.2) else tail
    | .error e => (d :: tail.1, errJust e :: tail.2)

/-- The inner coroutine `check_doc` of `GuardrailAgent._filter_parallel`:
returns `(index, doc, result)`, substituting a fail-open default
`GuardrailCheck(is_relevant=True, justification=f"Error during check: {e}")`
when the classifier call raises. -/
def check_doc (classify : Nat → Except Str GuardrailCheck) (i : Nat) (d : Str) :
    Nat × Str × GuardrailCheck :=
  match classify i with
  | .ok r => (i, d, r)
  | .error e => (i, d, { is_relevant := true, justification := errJust e })

/-- The task list `[check_doc(doc, i) for i, doc in enumerate(documents)]`,
with the starting index generalized for the proofs. -/
def checkFrom (classify : Nat → Except Str GuardrailCheck) :
    Nat → List Str → List (Nat × Str × GuardrailCheck)
  | _, [] => []
  | i, d :: rest => check_doc classify i d :: checkFrom classify (i + 1) rest

/-- Key order used by `sorted(results, key=lambda x: x[0])`. -/
def keyLe (x y : Nat × Str × GuardrailCheck) : Prop := x.1 ≤ y.1

instance : DecidableRel keyLe := fun x y => Nat.decLe x.1 y.1

instance : IsTotal (Nat × Str × GuardrailCheck) keyLe :=
  ⟨fun x y => Nat.le_total x.1 y.1⟩

instance : IsTrans (Nat × Str × GuardrailCheck) keyLe :=
  ⟨fun _ _ _ h1 h2 => Nat.le_trans h1 h2⟩

/-- Strict version of `keyLe`; results of distinct passages have distinct
indices, so the gathered results are strictly sorted once merged. -/
def keyLt (x y : Nat × Str × GuardrailCheck) : Prop := x.1 < y.1

instance : DecidableRel keyLt := fun x y => Nat.decLt x.1 y.1

instance : IsAntisymm (Nat × Str × GuardrailCheck) keyLt :=
  ⟨fun _ _ h1 h2 => absurd h1 (Nat.lt_asymm h2)⟩

/-- The final `for index, doc, result in sorted_results:` loop of
`_filter_parallel`, collecting relevant docs and justifications in order. -/
def collect_results : List (Nat × Str × GuardrailCheck) → List Str × List Str
  | [] => ([], [])
  | (_, d, r) :: rest =>
    let tail := collect_results rest
    if r.is_relevant then (d :: tail.1, r.justification :: tail.2) else tail

/-- Merge step of `_filter_parallel`: sort the gathered results by index
(`sorted(results, key=lambda x: x[0])`) and collect them. Parametrized by
the gathered result list so that collection order can be quantified over. -/
def merge_by_index (results : List (Nat × Str × GuardrailCheck)) : List Str × List Str :=
  collect_results (List.insertionSort keyLe results)

/-- `GuardrailAgent._filter_parallel`: `asyncio.gather` returns the
per-passage results (task order), which are then merged by index. -/
def filter_parallel (classify : Nat → Except Str GuardrailCheck) (docs : List Str) :
    List Str × List Str :=
  merge_by_index (checkFrom classify 0 docs)

/-- `GuardrailAgent.filter_documents`: empty input short-circuits, the
parallel path runs only for `parallel` and more than one document. -/
def filter_documents (classify : Nat → Except Str GuardrailCheck) (docs : List Str)
    (parallel : Bool) : List Str × List Str :=
  if docs.isEmpty then ([], [])
  else if parallel = true ∧ 1 < docs.length then filter_parallel classify docs
  else filter_sequential classify 0 docs

/-- Specification-level view of one passage's fate in the filter: kept with
its justification when relevant or when the classifier errored (fail-open),
dropped otherwise. -/
def keep_result (classify : Nat → Except Str GuardrailCheck) (i : Nat) (d : Str) :
    Option (Str × Str) :=
  match classify i with
  | .ok r => if r.is_relevant then some (d, r.justification) else none
  | .error e => some (d, errJust e)

/-- Specification-level view of the whole filter output as an indexed
filterMap of the input: order is input order. -/
def keptFrom (classify : Nat → Except Str GuardrailCheck) :
    Nat → List Str → List (Str × Str)
  | _, [] => []
  | i, d :: rest =>
    match keep_result classify i d with
    | some p => p :: keptFrom classify (i + 1) rest
    | none => keptFrom classify (i + 1) rest

/-! ### Data model of the pipeline (`src/pipeline/rag_pipeline.py`) -/

/-- Schema `Evaluation` of the scorer's structured output. The pydantic
field constraints `ge=1, le=5` make the score a nonnegative integer;
theorems that need the lower bound state `1 ≤ score` explicitly. -/
structure Evaluation where
  score : Nat
  justification : Str
deriving DecidableEq

/-- Dataclass `RAGResult`. -/
structure RAGResult where
  question : Str
  answer : Str
  score : Nat
  score_justification : Str
  source_context : Str
  documents_retrieved : Nat
  documents_after_filter : Nat
  correction_attempts : Nat
  success : Bool
  error_message : Option Str
deriving DecidableEq

/-- The fields of dataclass `QueryMetrics` that the claims are about, with
their dataclass defaults (`success: bool = True`, `final_score: int = 0`,
`error_message: Optional[str] = None`); latency, count and token fields
are timing-dependent and omitted. -/
structure QueryMetrics where
  success : Bool := true
  final_score : Nat := 0
  error_message : Option Str := none
deriving DecidableEq

/-- Oracle behaviours of the external collaborators for one `run` call:
the retriever, the relevance classifier (keyed by passage index), the
generator and the scorer (both keyed by attempt index). An `.error`
value models the underlying call raising an exception. -/
structure Env where
  retrieve : Str → Except Str (List Str)
  classify : Nat → Except Str GuardrailCheck
  gen : Nat → Except Str Str
  ev : Nat → Except Str Evaluation

/-- Configuration values consumed by `SelfCorrectedRAGPipeline`. -/
structure RAGConfig where
  max_correction_attempts : Nat
  min_acceptable_score : Nat
  enable_guardrail : Bool
  parallel_guardrail : Bool
  max_context_length : Nat
  max_query_length : Nat
deriving DecidableEq

/-- Number of calls made to the retriever, generator and scorer oracles. -/
structure CallCounts where
  retrieve_calls : Nat
  gen_calls : Nat
  eval_calls : Nat
deriving DecidableEq

/-- The `current_result` built on loop iteration `i` (0-based) of
`_execute_with_correction`, for pure generator/scorer behaviours. -/
def attempt_result (q ctx : Str) (nDocs nRel : Nat) (gen : Nat → Str)
    (ev : Nat → Evaluation) (i : Nat) : RAGResult :=
  { question := q
    answer := gen i
    score := (ev i).score
    score_justification := (ev i).justification
    source_context := ctx
    documents_retrieved := nDocs
    documents_after_filter := nRel
    correction_attempts := i + 1
    success := true
    error_message := none }

/-- The self-correction loop of `_execute_with_correction` (lines 193-249):
arguments after the oracles are the current 0-based attempt index, the
remaining iterations, `best_score` and `best_result`. Returns the loop
outcome (the returned `RAGResult`, `none` when the loop exhausts with no
best result, `.error` when a generator or scorer call raises) together
with the number of generator and scorer calls made. -/
def correction_loop (q ctx : Str) (nDocs nRel : Nat) (gen : Nat → Except Str Str)
    (ev : Nat → Except Str Evaluation) (minScore : Nat) :
    Nat → Nat → Nat → Option RAGResult → Except Str (Option RAGResult) × Nat × Nat
  | _, 0, _, res => (.ok res, 0, 0)
  | i, r + 1, b, res =>
    match gen i with
    | .error e => (.error e, 1, 0)
    | .ok answer =>
      match ev i with
      | .error e => (.error e, 1, 1)
      | .ok evl =>
        let current : RAGResult :=
          { question := q
            answer := answer
            score := evl.score
            score_justification := evl.justification
            source_context := ctx
            documents_retrieved := nDocs
            documents_after_filter := nRel
            correction_attempts := i + 1
            success := true
            error_message := none }
        let b2 := if b < evl.score then evl.score else b
        let res2 := if b < evl.score then some current else res
        if minScore ≤ evl.score then (.ok (some current), 1, 1)
        else
          let next := correction_loop q ctx nDocs nRel gen ev minScore (i + 1) r b2 res2
          (next.1, next.2.1 + 1, next.2.2 + 1)

/-- `_create_no_documents_result`. -/
def create_no_documents_result (q : Str) : RAGResult :=
  { question := q
    answer := "I could not find any relevant information to answer this question.".data
    score := 0
    score_justification := "No documents retrieved".data
    source_context := []
    documents_retrieved := 0
    documents_after_filter := 0
    correction_attempts := 0
    success := false
    error_message := some "No documents retrieved".data }

/-- `_create_no_relevant_context_result`. -/
def create_no_relevant_context_result (q : Str) (totalDocs : Nat) : RAGResult :=
  { question := q
    answer := "I could not find any relevant information to answer this question.".data
    score := 0
    score_justification := "No relevant context found after filtering".data
    source_context := []
    documents_retrieved := totalDocs
    documents_after_filter := 0
    correction_attempts := 0
    success := false
    error_message := some "No relevant documents after filtering".data }

/-- Message of the `RAGPipelineError` raised by `_retrieve_documents`. -/
def retrieval_fail_msg (e : Str) : Str := "Document retrieval failed: ".data ++ e

/-- Message of the `AttributeError` raised in `run` when the correction
loop returns `None` and `result.score` is accessed. -/
def none_attr_msg : Str := "NoneType object has no attribute score".data

/-- Context assembly plus the correction loop (steps 3-5 of
`_execute_with_correction`) once documents and relevant documents exist. -/
def execute_core (env : Env) (cfg : RAGConfig) (q : Str) (docs relevant : List Str) :
    Except Str (Option RAGResult) × CallCounts :=
  let context := prepare_context relevant cfg.max_context_length
  let r := correction_loop q context docs.length relevant.length env.gen env.ev
    cfg.min_acceptable_score 0 cfg.max_correction_attempts 0 none
  (r.1, ⟨1, r.2.1, r.2.2⟩)

/-- `SelfCorrectedRAGPipeline._execute_with_correction`: retrieve, then
the two empty-evidence short circuits, then the correction loop. -/
def execute_with_correction (env : Env) (cfg : RAGConfig) (q : Str) :
    Except Str (Option RAGResult) × CallCounts :=
  match env.retrieve q with
  | .error e => (.error (retrieval_fail_msg e), ⟨1, 0, 0⟩)
  | .ok docs =>
    if docs.isEmpty then (.ok (some (create_no_documents_result q)), ⟨1, 0, 0⟩)
    else if cfg.enable_guardrail then
      let rel := (filter_documents env.classify docs cfg.parallel_guardrail).1
      if rel.isEmpty then
        (.ok (some (create_no_relevant_context_result q docs.length)), ⟨1, 0, 0⟩)
      else execute_core env cfg q docs rel
    else execute_core env cfg q docs docs

/-- The body of the `try:` block of `SelfCorrectedRAGPipeline.run`:
validation then `_execute_with_correction`. Returns the outcome, the
value of the `question` variable at the point the block exits (it is
reassigned by validation), and the oracle call counts. -/
def pipeline_try (env : Env) (cfg : RAGConfig) (q : Str) :
    Except Str RAGResult × Str × CallCounts :=
  match validate_query q cfg.max_query_length with
  | .error e => (.error e, q, ⟨0, 0, 0⟩)
  | .ok q2 =>
    match execute_with_correction env cfg q2 with
    | (.ok (some r), c) => (.ok r, q2, c)
    | (.ok none, c) => (.error none_attr_msg, q2, c)
    | (.error e, c) => (.error e, q2, c)

/-- The `RAGResult` built in the `except` branch of `run`. -/
def pipeline_error_result (q e : Str) : RAGResult :=
  { question := q
    answer := "Error: ".data ++ e
    score := 0
    score_justification := "Pipeline execution failed".data
    source_context := []
    documents_retrieved := 0
    documents_after_filter := 0
    correction_attempts := 0
    success := false
    error_message := some e }

/-- `SelfCorrectedRAGPipeline.run`: returns the `RAGResult` handed to the
caller, the list of `QueryMetrics` records handed to the metrics sink
(`metrics_collector.record_query`), and the oracle call counts. On normal
exit the metrics keep their default `success=True` and take the result's
score; in the `except` branch `success=False` and the error message are
recorded. -/
def runPipeline (env : Env) (cfg : RAGConfig) (q : Str) :
    RAGResult × List QueryMetrics × CallCounts :=
  match pipeline_try env cfg q with
  | (.ok r, _, c) => (r, [{ success := true, final_score := r.score, error_message := none }], c)
  | (.error e, q2, c) =>
    (pipeline_error_result q2 e,
     [{ success := false, final_score := 0, error_message := some e }], c)

/-! ### Concrete oracle behaviours used by the witnesses below -/

/-- Score sequence 2, 4, 4, ... for the early-accept witness. -/
def evalsEarly : Nat → Evaluation :=
  fun i => if i = 0 then { score := 2, justification := [] } else { score := 4, justification := [] }

/-- Score sequence 2, 1, 1, ... for the exhaustion witness. -/
def evalsLow : Nat → Evaluation :=
  fun i => if i = 0 then { score := 2, justification := [] } else { score := 1, justification := [] }

/-- A fixed generated answer per attempt. -/
def gensW : Nat → Str := fun _ => ['a']

/-- A baseline configuration: the config defaults of `__init__`. -/
def cfgW : RAGConfig :=
  { max_correction_attempts := 3
    min_acceptable_score := 3
    enable_guardrail := true
    parallel_guardrail := true
    max_context_length := 8000
    max_query_length := 1000 }

/-- Environment whose retriever returns no documents. -/
def envNoDocs : Env :=
  { retrieve := fun _ => .ok []
    classify := fun _ => .error ['x']
    gen := fun _ => .error ['x']
    ev := fun _ => .error ['x'] }

/-- Environment whose retriever raises. -/
def envRetrFail : Env :=
  { retrieve := fun _ => .error ['b']
    classify := fun _ => .error ['x']
    gen := fun _ => .error ['x']
    ev := fun _ => .error ['x'] }

/-- Environment returning two documents, all classified irrelevant. -/
def envAllIrrelevant : Env :=
  { retrieve := fun _ => .ok [['d'], ['e']]
    classify := fun _ => .ok { is_relevant := false, justification := ['j'] }
    gen := fun _ => .error ['x']
    ev := fun _ => .error ['x'] }

/-- Classifier behaviour for the filter witnesses: errors on index 0,
relevant on index 1, irrelevant from index 2 on. -/
def classifyW : Nat → Except Str GuardrailCheck :=
  fun i =>
    if i = 0 then .error ['b']
    else if i = 1 then .ok { is_relevant := true, justification := ['j'] }
    else .ok { is_relevant := false, justification := ['k'] }

/-! ### Helper lemmas -/

/-- Proof device: the best-so-far accumulator of the correction loop in
isolation (the loop body with the early-accept branch removed), exactly
the update `if evaluation.score > best_score` of the source. -/
def best_fold (sc : Nat → Nat) (att : Nat → RAGResult) :
    Nat → Nat → Nat → Option RAGResult → Option RAGResult
  | _, 0, _, res => res
  | a, r + 1, b, res =>
    if b < sc a then best_fold sc att (a + 1) r (sc a) (some (att a))
    else best_fold sc att (a + 1) r b res

theorem filter_seq_kept (classify : Nat → Except Str GuardrailCheck) (docs : List Str) :
    ∀ a, filter_sequential classify a docs
      = ((keptFrom classify a docs).map Prod.fst, (keptFrom classify a docs).map Prod.snd) := by
  induction docs with
  | nil => intro a; rfl
  | cons d rest ih =>
    intro a
    cases hcl : classify a with
    | ok r =>
      cases hrel : r.is_relevant with
      | true => simp [filter_sequential, keptFrom, keep_result, hcl, hrel, ih (a + 1)]
      | false => simp [filter_sequential, keptFrom, keep_result, hcl, hrel, ih (a + 1)]
    | error e => simp [filter_sequential, keptFrom, keep_result, hcl, ih (a + 1)]

theorem collect_checkFrom (classify : Nat → Except Str GuardrailCheck) (docs : List Str) :
    ∀ a, collect_results (checkFrom classify a docs) = filter_sequential classify a docs := by
  induction docs with
  | nil => intro a; rfl
  | cons d rest ih =>
    intro a
    cases hcl : classify a with
    | ok r =>
      cases hrel : r.is_relevant with
      | true =>
        simp [checkFrom, check_doc, collect_results, filter_sequential, hcl, hrel, ih (a + 1)]
      | false =>
        simp [checkFrom, check_doc, collect_results, filter_sequential, hcl, hrel, ih (a + 1)]
    | error e =>
      simp [checkFrom, check_doc, collect_results, filter_sequential, hcl, ih (a + 1)]

theorem check_doc_key (classify : Nat → Except Str GuardrailCheck) (i : Nat) (d : Str) :
    (check_doc classify i d).1 = i := by
  cases h : classify i <;> simp [check_doc, h]

theorem checkFrom_key_lower (classify : Nat → Except Str GuardrailCheck) (docs : List Str) :
    ∀ a x, x ∈ checkFrom classify a docs → a ≤ x.1 := by
  induction docs with
  | nil => intro a x hx; cases hx
  | cons d rest ih =>
    intro a x hx
    cases hx with
    | head => rw [check_doc_key]
    | tail _ hx => have := ih (a + 1) x hx; omega

theorem checkFrom_sorted_lt (classify : Nat → Except Str GuardrailCheck) (docs : List Str) :
    ∀ a, (checkFrom classify a docs).Pairwise keyLt := by
  induction docs with
  | nil => intro a; exact List.Pairwise.nil
  | cons d rest ih =>
    intro a
    refine List.Pairwise.cons ?_ (ih (a + 1))
    intro y hy
    have h1 := checkFrom_key_lower classify rest (a + 1) y hy
    show (check_doc classify a d).1 < y.1
    rw [check_doc_key]
    omega

theorem insertionSort_perm_canonical (classify : Nat → Except Str GuardrailCheck)
    (docs : List Str) (collected : List (Nat × Str × GuardrailCheck))
    (hp : collected.Perm (checkFrom classify 0 docs)) :
    List.insertionSort keyLe collected = checkFrom classify 0 docs := by
  have hperm2 : (List.insertionSort keyLe collected).Perm (checkFrom classify 0 docs) :=
    (List.perm_insertionSort keyLe collected).trans hp
  have hcan_lt : (checkFrom classify 0 docs).Pairwise keyLt :=
    checkFrom_sorted_lt classify docs 0
  have hcan_ne : (checkFrom classify 0 docs).Pairwise (fun x y => x.1 ≠ y.1) :=
    hcan_lt.imp (fun h => Nat.ne_of_lt h)
  have hsorted_ne :
      (List.insertionSort keyLe collected).Pairwise (fun x y => x.1 ≠ y.1) := by
    have hpm : ((List.insertionSort keyLe collected).map (fun x => x.1)).Perm
        ((checkFrom classify 0 docs).map (fun x => x.1)) := hperm2.map _
    have h1 : ((checkFrom classify 0 docs).map (fun x => x.1)).Nodup := by
      show ((checkFrom classify 0 docs).map (fun x => x.1)).Pairwise (fun a b => a ≠ b)
      rw [List.pairwise_map]
      exact hcan_ne
    have h2 : ((List.insertionSort keyLe collected).map (fun x => x.1)).Nodup :=
      hpm.nodup_iff.mpr h1
    have h4 : ((List.insertionSort keyLe collected).map (fun x => x.1)).Pairwise
        (fun a b => a ≠ b) := h2
    rw [List.pairwise_map] at h4
    exact h4
  have hsorted_le : (List.insertionSort keyLe collected).Pairwise keyLe :=
    List.sorted_insertionSort keyLe collected
  have hsorted_lt : (List.insertionSort keyLe collected).Pairwise keyLt :=
    (hsorted_le.and hsorted_ne).imp (fun h => Nat.lt_of_le_of_ne h.1 h.2)
  exact List.eq_of_perm_of_sorted hperm2 hsorted_lt hcan_lt

theorem keptFrom_append (classify : Nat → Except Str GuardrailCheck) (l1 : List Str) :
    ∀ a l2, keptFrom classify a (l1 ++ l2)
      = keptFrom classify a l1 ++ keptFrom classify (a + l1.length) l2 := by
  induction l1 with
  | nil => intro a l2; simp [keptFrom]
  | cons d rest ih =>
    intro a l2
    have hlen : a + 1 + rest.length = a + (rest.length + 1) := by omega
    cases hk : keep_result classify a d with
    | some p =>
      have h1 : keptFrom classify a ((d :: rest) ++ l2)
          = p :: keptFrom classify (a + 1) (rest ++ l2) := by
        rw [List.cons_append]
        simp [keptFrom, hk]
      have h2 : keptFrom classify a (d :: rest) = p :: keptFrom classify (a + 1) rest := by
        simp [keptFrom, hk]
      rw [h1, h2, ih (a + 1) l2, List.cons_append, List.length_cons, hlen]
    | none =>
      have h1 : keptFrom classify a ((d :: rest) ++ l2)
          = keptFrom classify (a + 1) (rest ++ l2) := by
        rw [List.cons_append]
        simp [keptFrom, hk]
      have h2 : keptFrom classify a (d :: rest) = keptFrom classify (a + 1) rest := by
        simp [keptFrom, hk]
      rw [h1, h2, ih (a + 1) l2, List.length_cons, hlen]

theorem loop_no_accept (q ctx : Str) (nD nR : Nat) (gen : Nat → Str)
    (ev : Nat → Evaluation) (minScore : Nat) (r : Nat) :
    ∀ a b res,
      (∀ i, a ≤ i → i < a + r → (ev i).score < minScore) →
      correction_loop q ctx nD nR (fun i => .ok (gen i)) (fun i => .ok (ev i))
        minScore a r b res
        = (.ok (best_fold (fun i => (ev i).score)
            (attempt_result q ctx nD nR gen ev) a r b res), r, r) := by
  induction r with
  | zero => intro a b res _; rfl
  | succ r ih =>
    intro a b res h
    have hlt : (ev a).score < minScore := h a (Nat.le_refl a) (by omega)
    simp only [correction_loop, best_fold]
    rw [if_neg (by omega)]
    rw [ih (a + 1) _ _ (fun i h1 h2 => h i (by omega) (by omega))]
    by_cases hb : b < (ev a).score
    · simp [hb, attempt_result]
    · simp [hb]

theorem best_fold_le (sc : Nat → Nat) (att : Nat → RAGResult) (r : Nat) :
    ∀ a b res, (∀ i, a ≤ i → i < a + r → sc i ≤ b) →
      best_fold sc att a r b res = res := by
  induction r with
  | zero => intro a b res _; rfl
  | succ r ih =>
    intro a b res h
    have hle : sc a ≤ b := h a (Nat.le_refl a) (by omega)
    simp only [best_fold]
    rw [if_neg (by omega)]
    exact ih (a + 1) b res (fun i h1 h2 => h i (by omega) (by omega))

theorem best_fold_spec (sc : Nat → Nat) (att : Nat → RAGResult) (r : Nat) :
    ∀ a b res,
      (∃ i, a ≤ i ∧ i < a + r ∧ b < sc i) →
      ∃ j, a ≤ j ∧ j < a + r ∧ b < sc j
        ∧ (∀ i, a ≤ i → i < a + r → sc i ≤ sc j)
        ∧ (∀ i, a ≤ i → i < j → sc i < sc j)
        ∧ best_fold sc att a r b res = some (att j) := by
  induction r with
  | zero =>
    rintro a b res ⟨i, h1, h2, _⟩
    omega
  | succ r ih =>
    rintro a b res ⟨i, hai, hir, hbi⟩
    by_cases hba : b < sc a
    · by_cases hex : ∃ i2, a + 1 ≤ i2 ∧ i2 < (a + 1) + r ∧ sc a < sc i2
      · obtain ⟨j, hj1, hj2, hj3, hj4, hj5, hj6⟩ := ih (a + 1) (sc a) (some (att a)) hex
        refine ⟨j, by omega, by omega, by omega, ?_, ?_, ?_⟩
        · intro i2 h1 h2
          by_cases h0 : i2 = a
          · subst h0; omega
          · exact hj4 i2 (by omega) (by omega)
        · intro i2 h1 h2
          by_cases h0 : i2 = a
          · subst h0; omega
          · exact hj5 i2 (by omega) h2
        · simp only [best_fold]
          rw [if_pos hba]
          exact hj6
      · push_neg at hex
        refine ⟨a, Nat.le_refl a, by omega, hba, ?_, ?_, ?_⟩
        · intro i2 h1 h2
          by_cases h0 : i2 = a
          · subst h0; exact Nat.le_refl _
          · exact hex i2 (by omega) (by omega)
        · intro i2 h1 h2
          omega
        · simp only [best_fold]
          rw [if_pos hba]
          exact best_fold_le sc att r (a + 1) (sc a) (some (att a))
            (fun i2 h1 h2 => hex i2 h1 h2)
    · have hine : i ≠ a := fun h0 => hba (h0 ▸ hbi)
      obtain ⟨j, hj1, hj2, hj3, hj4, hj5, hj6⟩ :=
        ih (a + 1) b res ⟨i, by omega, by omega, hbi⟩
      refine ⟨j, by omega, by omega, hj3, ?_, ?_, ?_⟩
      · intro i2 h1 h2
        by_cases h0 : i2 = a
        · subst h0; omega
        · exact hj4 i2 (by omega) (by omega)
      · intro i2 h1 h2
        by_cases h0 : i2 = a
        · subst h0; omega
        · exact hj5 i2 (by omega) h2
      · simp only [best_fold]
        rw [if_neg hba]
        exact hj6

theorem loop_accept_at (q ctx : Str) (nD nR : Nat) (gen : Nat → Str)
    (ev : Nat → Evaluation) (minScore : Nat) (j : Nat) :
    ∀ a r b res, j < r →
      (∀ i, a ≤ i → i < a + j → (ev i).score < minScore) →
      minScore ≤ (ev (a + j)).score →
      correction_loop q ctx nD nR (fun i => .ok (gen i)) (fun i => .ok (ev i))
        minScore a r b res
        = (.ok (some (attempt_result q ctx nD nR gen ev (a + j))), j + 1, j + 1) := by
  induction j with
  | zero =>
    intro a r b res hjr hlow hacc
    cases r with
    | zero => omega
    | succ r =>
      simp only [correction_loop]
      rw [if_pos (by simpa using hacc)]
      simp [attempt_result]
  | succ j ih =>
    intro a r b res hjr hlow hacc
    cases r with
    | zero => omega
    | succ r =>
      have hlt : (ev a).score < minScore := hlow a (Nat.le_refl a) (by omega)
      have heq : (a + 1) + j = a + (j + 1) := by omega
      simp only [correction_loop]
      rw [if_neg (by omega)]
      rw [ih (a + 1) r _ _ (by omega)
        (fun i h1 h2 => hlow i (by omega) (by omega))
        (by rw [heq]; exact hacc)]
      rw [heq]

theorem truncate_step_idem (maxLen : Nat) (s : Str) :
    truncate_step maxLen (truncate_step maxLen s) = truncate_step maxLen s := by
  unfold truncate_step
  by_cases h : maxLen < s.length
  · rw [if_pos h]
    have htake : (s.take maxLen).length = maxLen := by
      rw [List.length_take]; omega
    have hm : 0 < truncMarker.length := by decide
    have hlt : maxLen < (s.take maxLen ++ truncMarker).length := by
      rw [List.length_append, htake]; omega
    rw [if_pos hlt]
    have h1 : (s.take maxLen ++ truncMarker).take maxLen = (s.take maxLen).take maxLen :=
      List.take_append_of_le_length (by omega)
    rw [h1, List.take_take, Nat.min_self]
  · rw [if_neg h, if_neg h]

/-! ### C7 -/

/-- C7: context assembly is a total deterministic function; when the joined
passage text is at most `max_length` characters it is returned unchanged;
and re-applying the truncation step of the assembly to its own output at
the same bound is a no-op. -/
theorem c7_context_assembly (docs : List Str) (maxLen : Nat) :
    ((joinContext docs).length ≤ maxLen → prepare_context docs maxLen = joinContext docs)
    ∧ truncate_step maxLen (prepare_context docs maxLen) = prepare_context docs maxLen := by
  constructor
  · intro h
    unfold prepare_context truncate_step
    rw [if_neg (by omega)]
  · unfold prepare_context
    exact truncate_step_idem maxLen (joinContext docs)

/-- Witness for C7 at a concrete input: a one-passage list whose joined
text has length 1 at bound 5. -/
theorem c7_context_assembly_witness :
    (joinContext [['a']]).length ≤ 5
    ∧ prepare_context [['a']] 5 = joinContext [['a']]
    ∧ truncate_step 5 (prepare_context [['a']] 5) = prepare_context [['a']] 5 :=
  ⟨by decide, (c7_context_assembly [['a']] 5).1 (by decide), (c7_context_assembly [['a']] 5).2⟩

/-! ### C9 -/

/-- C9: the constructor line `max_correction_attempts or config.get(...)`
(and the analogous line for `min_acceptable_score`) treats a passed `0` as
falsy: it silently yields the configured default (3 in the absence of
config, the configured value otherwise), so the value `0` cannot be
configured through the constructor argument. -/
theorem c9_zero_argument_falls_back :
    init_max_correction_attempts (some 0) none = 3
    ∧ init_min_acceptable_score (some 0) none = 3
    ∧ (∀ d : Option Int, init_max_correction_attempts (some 0) d = config_get d 3)
    ∧ (∀ d : Option Int, init_min_acceptable_score (some 0) d = config_get d 3)
    ∧ (∀ v : Int, init_max_correction_attempts (some v) none = if v = 0 then 3 else v)
    ∧ (∀ v : Int, init_min_acceptable_score (some v) none = if v = 0 then 3 else v) :=
  ⟨rfl, rfl, fun _ => rfl, fun _ => rfl, fun _ => rfl, fun _ => rfl⟩

/-! ### C8 -/

/-- C8 counterexample: the single-space question is empty after trimming
(`stripWs` maps it to the empty string), yet validation accepts it and the
retriever is called once — not zero times as the claim states. -/
theorem c8_counterexample :
    stripWs [' '] = []
    ∧ validate_query [' '] cfgW.max_query_length = .ok []
    ∧ (runPipeline envNoDocs cfgW [' ']).2.2.retrieve_calls = 1
    ∧ (((runPipeline envNoDocs cfgW [' ']).2.2.retrieve_calls == 0) = false) := by
  decide

/-- C8 amended: the orchestrator rejects the question before any retrieval
call whenever the question is the empty string, or exceeds the configured
maximum length; for every such input zero retriever (and generator) calls
occur and the run surfaces a validation failure with `success=false`. A
question that is merely whitespace (empty only after trimming) is not
rejected. -/
theorem c8_validation_rejects_before_retrieval (env : Env) (cfg : RAGConfig) (q : Str)
    (h : q = [] ∨ cfg.max_query_length < q.length) :
    (runPipeline env cfg q).2.2.retrieve_calls = 0
    ∧ (runPipeline env cfg q).2.2.gen_calls = 0
    ∧ (runPipeline env cfg q).1.success = false := by
  have hv : ∃ e, validate_query q cfg.max_query_length = .error e := by
    unfold validate_query
    by_cases he : q.isEmpty
    · exact ⟨errQueryEmpty, by rw [if_pos he]⟩
    · have hlen : cfg.max_query_length < q.length := by
        cases h with
        | inl h => exact absurd (by rw [h]; rfl) he
        | inr h => exact h
      exact ⟨errQueryTooLong, by rw [if_neg he, if_pos hlen]⟩
  obtain ⟨e, hv⟩ := hv
  simp [runPipeline, pipeline_try, hv, pipeline_error_result]

/-- Witness for the amended C8 at the empty question. -/
theorem c8_validation_rejects_witness :
    (runPipeline envNoDocs cfgW []).2.2.retrieve_calls = 0
    ∧ (runPipeline envNoDocs cfgW []).2.2.gen_calls = 0
    ∧ (runPipeline envNoDocs cfgW []).1.success = false :=
  c8_validation_rejects_before_retrieval envNoDocs cfgW [] (Or.inl rfl)

/-! ### C3 -/

/-- C3: for every question and every behaviour of the external
collaborators (any of the retriever, classifier, generator or scorer may
raise), `run` always returns a `RAGResult` and hands exactly one
`QueryMetrics` record to the metrics sink; when the body of the `try`
block raised, the returned result has `success=false` and the error
message populated. -/
theorem c3_boundary_and_one_metrics_record (env : Env) (cfg : RAGConfig) (q : Str) :
    (runPipeline env cfg q).2.1.length = 1
    ∧ (∀ e q2 c, pipeline_try env cfg q = (.error e, q2, c) →
        (runPipeline env cfg q).1.success = false
        ∧ (runPipeline env cfg q).1.error_message = some e) := by
  constructor
  · rcases h : pipeline_try env cfg q with ⟨out, q2, c⟩
    cases out with
    | ok r => simp [runPipeline, h]
    | error e => simp [runPipeline, h]
  · intro e q2 c h
    simp [runPipeline, h, pipeline_error_result]

/-- Witness for C3 with a retriever that raises. -/
theorem c3_boundary_witness :
    (runPipeline envRetrFail cfgW ['h']).2.1.length = 1
    ∧ (runPipeline envRetrFail cfgW ['h']).1.success = false
    ∧ (runPipeline envRetrFail cfgW ['h']).1.error_message
        = some (retrieval_fail_msg ['b']) :=
  ⟨(c3_boundary_and_one_metrics_record envRetrFail cfgW ['h']).1,
   ((c3_boundary_and_one_metrics_record envRetrFail cfgW ['h']).2
     (retrieval_fail_msg ['b']) ['h'] ⟨1, 0, 0⟩ (by decide)).1,
   ((c3_boundary_and_one_metrics_record envRetrFail cfgW ['h']).2
     (retrieval_fail_msg ['b']) ['h'] ⟨1, 0, 0⟩ (by decide)).2⟩

/-! ### C10 -/

/-- C10: on the two empty-evidence short-circuit paths the `QueryMetrics`
record handed to the sink has `success=True` and `final_score=0`, while the
`RAGResult` returned by the same invocation has `success=false`: the
metrics success flag is set unconditionally on every non-exception exit of
`run`. -/
theorem c10_metrics_success_on_empty_evidence (env : Env) (cfg : RAGConfig) (q q2 : Str)
    (hv : validate_query q cfg.max_query_length = .ok q2) :
    (env.retrieve q2 = .ok [] →
      runPipeline env cfg q =
        (create_no_documents_result q2,
         [{ success := true, final_score := 0, error_message := none }], ⟨1, 0, 0⟩))
    ∧ (∀ docs, env.retrieve q2 = .ok docs → docs.isEmpty = false →
        cfg.enable_guardrail = true →
        (filter_documents env.classify docs cfg.parallel_guardrail).1 = [] →
        runPipeline env cfg q =
          (create_no_relevant_context_result q2 docs.length,
           [{ success := true, final_score := 0, error_message := none }], ⟨1, 0, 0⟩))
    ∧ (create_no_documents_result q2).success = false
    ∧ (∀ n, (create_no_relevant_context_result q2 n).success = false) := by
  refine ⟨?_, ?_, rfl, fun _ => rfl⟩
  · intro hr
    have hx : execute_with_correction env cfg q2
        = (.ok (some (create_no_documents_result q2)), ⟨1, 0, 0⟩) := by
      simp [execute_with_correction, hr]
    simp [runPipeline, pipeline_try, hv, hx, create_no_documents_result]
  · intro docs hr hne hg hrel
    have hx : execute_with_correction env cfg q2
        = (.ok (some (create_no_relevant_context_result q2 docs.length)), ⟨1, 0, 0⟩) := by
      simp [execute_with_correction, hr, hne, hg, hrel]
    simp [runPipeline, pipeline_try, hv, hx, create_no_relevant_context_result]

/-- Witness for C10: the no-documents path with a concrete environment. -/
theorem c10_metrics_success_witness :
    runPipeline envNoDocs cfgW ['h'] =
      (create_no_documents_result ['h'],
       [{ success := true, final_score := 0, error_message := none }], ⟨1, 0, 0⟩)
    ∧ (create_no_documents_result (['h'] : Str)).success = false :=
  ⟨(c10_metrics_success_on_empty_evidence envNoDocs cfgW ['h'] ['h'] (by decide)).1
    (by decide),
   (c10_metrics_success_on_empty_evidence envNoDocs cfgW ['h'] ['h'] (by decide)).2.2.1⟩

/-! ### C4 -/

/-- C4: zero retrieved passages short-circuit `_execute_with_correction`
to the deterministic no-documents result with score 0, `success=false`,
`correction_attempts=0` and zero generator/scorer calls; when filtering
removes all passages the short circuit is the same except that
`documents_retrieved` records the pre-filter count, and the two cases
carry distinct justification texts. -/
theorem c4_short_circuits (env : Env) (cfg : RAGConfig) (q : Str) :
    (env.retrieve q = .ok [] →
      execute_with_correction env cfg q =
        (.ok (some (create_no_documents_result q)), ⟨1, 0, 0⟩))
    ∧ (∀ docs, env.retrieve q = .ok docs → docs.isEmpty = false →
        cfg.enable_guardrail = true →
        (filter_documents env.classify docs cfg.parallel_guardrail).1 = [] →
        execute_with_correction env cfg q =
          (.ok (some (create_no_relevant_context_result q docs.length)), ⟨1, 0, 0⟩))
    ∧ (create_no_documents_result q).score = 0
    ∧ (create_no_documents_result q).success = false
    ∧ (create_no_documents_result q).correction_attempts = 0
    ∧ (create_no_documents_result q).documents_retrieved = 0
    ∧ (∀ n, (create_no_relevant_context_result q n).score = 0
        ∧ (create_no_relevant_context_result q n).success = false
        ∧ (create_no_relevant_context_result q n).correction_attempts = 0
        ∧ (create_no_relevant_context_result q n).documents_retrieved = n
        ∧ (create_no_relevant_context_result q n).answer
            = (create_no_documents_result q).answer)
    ∧ (∀ n, (((create_no_documents_result q).score_justification ==
        (create_no_relevant_context_result q n).score_justification) = false)) := by
  refine ⟨?_, ?_, rfl, rfl, rfl, rfl, fun n => ⟨rfl, rfl, rfl, rfl, rfl⟩,
    fun n =>
      (by decide :
        (("No documents retrieved".data : Str) ==
          "No relevant context found after filtering".data) = false)⟩
  · intro hr
    simp [execute_with_correction, hr]
  · intro docs hr hne hg hrel
    simp [execute_with_correction, hr, hne, hg, hrel]

/-- Witness for C4: an environment retrieving two passages that the
classifier marks irrelevant, so the post-filter short circuit fires with
`documents_retrieved = 2` and zero generator/scorer calls. -/
theorem c4_short_circuits_witness :
    execute_with_correction envAllIrrelevant cfgW ['h'] =
      (.ok (some (create_no_relevant_context_result ['h'] 2)), ⟨1, 0, 0⟩)
    ∧ (create_no_relevant_context_result (['h'] : Str) 2).documents_retrieved = 2 :=
  ⟨(c4_short_circuits envAllIrrelevant cfgW ['h']).2.1 [['d'], ['e']]
    (by decide) (by decide) (by decide) (by decide),
   ((c4_short_circuits envAllIrrelevant cfgW ['h']).2.2.2.2.2.2.1 2).2.2.2.1⟩

/-! ### C1 -/

/-- C1: when the correction loop runs all `k = max_attempts` iterations
and every score is strictly below `min_acceptable_score` (scores are at
least 1 by the scorer's schema), the loop returns the attempt whose score
is the maximum of all scores, and among ties the one with the lowest
attempt number: the returned attempt at index `j` satisfies
`score i ≤ score j` for all `i < k` and `score i < score j` for all
`i < j`. Exactly `k` generator and `k` scorer calls are made. -/
theorem c1_exhaustion_returns_earliest_best (q ctx : Str) (nD nR : Nat)
    (gen : Nat → Str) (ev : Nat → Evaluation) (k minScore : Nat)
    (hk : 0 < k)
    (hlow : ∀ i, i < k → (ev i).score < minScore)
    (hpos : ∀ i, i < k → 1 ≤ (ev i).score) :
    ∃ j, j < k
      ∧ (∀ i, i < k → (ev i).score ≤ (ev j).score)
      ∧ (∀ i, i < j → (ev i).score < (ev j).score)
      ∧ correction_loop q ctx nD nR (fun i => .ok (gen i)) (fun i => .ok (ev i))
          minScore 0 k 0 none
        = (.ok (some (attempt_result q ctx nD nR gen ev j)), k, k) := by
  have hne := loop_no_accept q ctx nD nR gen ev minScore k 0 0 none
    (fun i _ h2 => hlow i (by omega))
  obtain ⟨j, _, hjk, _, hmax, hearly, heq⟩ :=
    best_fold_spec (fun i => (ev i).score) (attempt_result q ctx nD nR gen ev) k 0 0 none
      ⟨0, Nat.le_refl 0, by omega, by simpa using hpos 0 hk⟩
  exact ⟨j, by omega,
    fun i hik => hmax i (by omega) (by omega),
    fun i hij => hearly i (by omega) hij,
    by rw [hne, heq]⟩

/-- Witness for C1: scores 2 then 1 with threshold 3 over 2 attempts; the
returned attempt is the first (score 2, the earliest maximum). -/
theorem c1_exhaustion_witness :
    ∃ j, j < 2
      ∧ (∀ i, i < 2 → (evalsLow i).score ≤ (evalsLow j).score)
      ∧ (∀ i, i < j → (evalsLow i).score < (evalsLow j).score)
      ∧ correction_loop [] [] 1 1 (fun i => .ok (gensW i)) (fun i => .ok (evalsLow i))
          3 0 2 0 none
        = (.ok (some (attempt_result [] [] 1 1 gensW evalsLow j)), 2, 2) :=
  c1_exhaustion_returns_earliest_best [] [] 1 1 gensW evalsLow 2 3
    (by decide) (by decide) (by decide)

/-! ### C2 -/

/-- C2: as soon as an iteration's score reaches `min_acceptable_score`
the loop stops and returns that iteration's attempt: if scores before
attempt index `j` are below the threshold and attempt `j` reaches it,
the loop returns attempt `j` after exactly `j+1` generator and `j+1`
scorer calls. In particular (see the witness) for scores `[2, 4]` and
threshold 3 exactly 2 generation calls occur and the second attempt
(score 4) is returned. -/
theorem c2_early_accept (q ctx : Str) (nD nR : Nat) (gen : Nat → Str)
    (ev : Nat → Evaluation) (k minScore j : Nat)
    (hj : j < k)
    (hlow : ∀ i, i < j → (ev i).score < minScore)
    (hacc : minScore ≤ (ev j).score) :
    correction_loop q ctx nD nR (fun i => .ok (gen i)) (fun i => .ok (ev i))
      minScore 0 k 0 none
      = (.ok (some (attempt_result q ctx nD nR gen ev j)), j + 1, j + 1) := by
  have h := loop_accept_at q ctx nD nR gen ev minScore j 0 k 0 none hj
    (fun i _ h2 => hlow i (by omega)) (by simpa using hacc)
  simpa using h

/-- Witness for C2: the spec's concrete score sequence `[2, 4]` with
threshold 3 and `max_attempts = 3`: the second attempt (score 4) is
returned and exactly 2 generator and 2 scorer calls occur. -/
theorem c2_early_accept_witness :
    correction_loop [] [] 1 1 (fun i => .ok (gensW i)) (fun i => .ok (evalsEarly i))
      3 0 3 0 none
      = (.ok (some (attempt_result [] [] 1 1 gensW evalsEarly 1)), 2, 2)
    ∧ (attempt_result [] [] 1 1 gensW evalsEarly 1).score = 4 :=
  ⟨c2_early_accept [] [] 1 1 gensW evalsEarly 3 3 1 (by decide) (by decide) (by decide),
   by decide⟩

/-! ### C5 -/

/-- C5: for every passage list and every classifier behaviour, the filter
output (in both paths) is the indexed filterMap `keptFrom` of the input —
so output order is input order — and if the classifier call for passage
`i` errors, that passage is kept: the output splits as the kept passages
before `i`, then the errored passage paired with the justification
recording the error, then the kept passages after `i`. The per-passage
failure never surfaces as a pipeline-level error: the filter functions
are total and return no error value. -/
theorem c5_fail_open (classify : Nat → Except Str GuardrailCheck) (docs : List Str) :
    filter_sequential classify 0 docs
      = ((keptFrom classify 0 docs).map Prod.fst, (keptFrom classify 0 docs).map Prod.snd)
    ∧ filter_parallel classify docs = filter_sequential classify 0 docs
    ∧ (∀ i (h : i < docs.length) e, classify i = .error e →
        keptFrom classify 0 docs
          = keptFrom classify 0 (docs.take i)
            ++ (docs.get ⟨i, h⟩, errJust e) :: keptFrom classify (i + 1) (docs.drop (i + 1))) := by
  refine ⟨filter_seq_kept classify docs 0, ?_, ?_⟩
  · unfold filter_parallel merge_by_index
    rw [insertionSort_perm_canonical classify docs _ (List.Perm.refl _)]
    exact collect_checkFrom classify docs 0
  · intro i h e hcl
    have hdrop : docs.get ⟨i, h⟩ :: docs.drop (i + 1) = docs.drop i := by
      rw [List.get_eq_getElem]
      exact List.getElem_cons_drop docs i h
    have hsplit : docs = docs.take i ++ docs.get ⟨i, h⟩ :: docs.drop (i + 1) := by
      rw [hdrop, List.take_append_drop]
    have hlen : (docs.take i).length = i := by
      rw [List.length_take]
      omega
    conv_lhs => rw [hsplit]
    rw [keptFrom_append, hlen, Nat.zero_add]
    congr 1
    simp [keptFrom, keep_result, hcl]

/-- Witness for C5: two passages with the classifier erroring on the
first; the errored passage appears first in the output with the error
justification, followed by the relevant second passage. -/
theorem c5_fail_open_witness :
    filter_parallel classifyW [['p'], ['q']] = filter_sequential classifyW 0 [['p'], ['q']]
    ∧ keptFrom classifyW 0 [['p'], ['q']]
        = keptFrom classifyW 0 ([['p'], ['q']].take 0)
          ++ ([['p'], ['q']].get ⟨0, by decide⟩, errJust ['b'])
            :: keptFrom classifyW 1 ([['p'], ['q']].drop 1) :=
  ⟨(c5_fail_open classifyW [['p'], ['q']]).2.1,
   (c5_fail_open classifyW [['p'], ['q']]).2.2 0 (by decide) ['b'] (by decide)⟩

/-! ### C6 -/

/-- C6: for every passage list and per-passage classifier verdict
assignment, the parallel and sequential paths produce the same
relevant-passage and justification lists in input order; moreover the
parallel path's merge is independent of collection order: for any
permutation `collected` of the per-passage results, merging by index
yields exactly the sequential output. -/
theorem c6_parallel_sequential_equivalent (classify : Nat → Except Str GuardrailCheck)
    (docs : List Str) (collected : List (Nat × Str × GuardrailCheck))
    (hp : collected.Perm (checkFrom classify 0 docs)) :
    merge_by_index collected = filter_sequential classify 0 docs
    ∧ filter_documents classify docs true = filter_documents classify docs false := by
  have hmerge : ∀ c2, c2.Perm (checkFrom classify 0 docs) →
      merge_by_index c2 = filter_sequential classify 0 docs := by
    intro c2 hp2
    unfold merge_by_index
    rw [insertionSort_perm_canonical classify docs c2 hp2]
    exact collect_checkFrom classify docs 0
  refine ⟨hmerge collected hp, ?_⟩
  unfold filter_documents
  by_cases hemp : docs.isEmpty
  · rw [if_pos hemp, if_pos hemp]
  · rw [if_neg hemp, if_neg hemp]
    by_cases hlen : 1 < docs.length
    · rw [if_pos ⟨rfl, hlen⟩, if_neg (fun h2 => absurd h2.1 (by decide))]
      exact hmerge (checkFrom classify 0 docs) (List.Perm.refl _)
    · rw [if_neg (fun h2 => hlen h2.2), if_neg (fun h2 => absurd h2.1 (by decide))]

/-- Witness for C6: three passages, with the gathered per-passage results
presented in reversed (completion-like) order; the merge still equals the
sequential output, and the dispatcher agrees for both flag values. -/
theorem c6_parallel_sequential_witness :
    merge_by_index ((checkFrom classifyW 0 [['p'], ['q'], ['r']]).reverse)
      = filter_sequential classifyW 0 [['p'], ['q'], ['r']]
    ∧ filter_documents classifyW [['p'], ['q'], ['r']] true
      = filter_documents classifyW [['p'], ['q'], ['r']] false :=
  c6_parallel_sequential_equivalent classifyW [['p'], ['q'], ['r']]
    ((checkFrom classifyW 0 [['p'], ['q'], ['r']]).reverse)
    (List.reverse_perm _)
